import Mathlib

/-!
Verification of the hyperion dust optical-property subsystem
(`hyperion/dust/dust_type.py`) and the filter curve type
(`hyperion/filter/filter.py`).

Floating-point arithmetic of the source is embedded as exact real
arithmetic (`ℝ`) where real powers occur and as exact rationals (`ℚ`)
elsewhere; a numpy NaN is embedded as `Option.none`.  External
collaborator modules that are not part of the two source files
(the table container library, the log-log interpolator, the array
validator, the emissivity and mean-opacity payloads) are modelled from
the specification or taken as parameters, as noted on each definition.
-/

set_option autoImplicit false

namespace Hyperion

/-! ## Henyey-Greenstein phase function (dust_type.py, lines 28-33) -/

/-- Embedding of `henyey_greenstein(mu, g, p_lin_max)`:
`P1 = (1 - g*g) / (1 + g*g - 2*g*mu) ** 1.5`,
`P2 = -p_lin_max * P1 * (1 - mu*mu) / (1 + mu*mu)`,
`P3 = P1 * 2 * mu / (1 + mu*mu)`, `P4 = 0`. -/
noncomputable def henyey_greenstein (mu g p_lin_max : ℝ) : ℝ × ℝ × ℝ × ℝ :=
  let P1 : ℝ := (1 - g * g) / (1 + g * g - 2 * g * mu) ^ (1.5 : ℝ)
  let P2 : ℝ := - p_lin_max * P1 * (1 - mu * mu) / (1 + mu * mu)
  let P3 : ℝ := P1 * 2 * mu / (1 + mu * mu)
  let P4 : ℝ := 0
  (P1, P2, P3, P4)

/-! ## Data model for the dust model aggregate (dust_type.py, class SphericalDust) -/

/-- The dust sublimation mode, one of `no`, `fast`, `slow`, `cap`
(dust_type.py, lines 105-142). -/
inductive SublimationMode where
  | no
  | fast
  | slow
  | cap
deriving DecidableEq, Repr

/-- Modelled from the spec: the class `OpticalProperties` lives in the
module `hyperion.dust.optical_properties`, which is not among the source
files; the spec describes it as holding `nu`, `mu`, `albedo`, `chi` and
the four phase matrices `P1..P4` of shape `(n_wav, n_mu)` (spec section 3,
"Optical-Property Table").  The matrices are stored row-major (one row
per wavelength). -/
structure OpticalProperties (α : Type) where
  nu : List α
  mu : List α
  albedo : List α
  chi : List α
  P1 : List (List α)
  P2 : List (List α)
  P3 : List (List α)
  P4 : List (List α)
deriving DecidableEq, Repr

/-- The in-memory dust model state (dust_type.py, `SphericalDust.__init__`,
lines 38-49).  The emissivity and mean-opacity payload types `E` and `M`
are parameters: the spec declares the modules computing them external
collaborators consumed as black boxes.  `none` embeds the unset state of
the lazy derived quantities. -/
structure DustModel (E M : Type) where
  filename : Option String
  md5 : Option String
  optical_properties : OpticalProperties ℚ
  emissivities : Option E
  mean_opacities : Option M
  sublimation_mode : SublimationMode
  sublimation_energy : ℚ
deriving DecidableEq

/-- A freshly constructed `SphericalDust()`: `filename = None`,
`md5 = None`, empty collaborator states, sublimation set to `(no, 0)`
(dust_type.py, lines 38-49). -/
def DustModel.fresh (E M : Type) : DustModel E M :=
  { filename := none
    md5 := none
    optical_properties := { nu := [], mu := [], albedo := [], chi := [],
                            P1 := [], P2 := [], P3 := [], P4 := [] }
    emissivities := none
    mean_opacities := none
    sublimation_mode := SublimationMode.no
    sublimation_energy := 0 }

/-- Modelled from the spec: the `atpy.TableSet` container written by
`SphericalDust.write` and the `to_table_set`/`from_table_set` methods of
the collaborators are not among the source files.  Following spec
sections 4.4 and 6, the container holds the keywords `version`, `type`,
`python_version`, the optional `asciimd5` checksum, the sublimation
keywords (`sublimation_specific_energy` present iff mode is not `no`),
and the optical-property, mean-opacity and emissivity sub-tables, stored
and restored faithfully ("reconstructing the same Optical-Property Table
bit-for-bit"). -/
structure DustTableSet (E M : Type) where
  version : ℤ
  typ : ℤ
  python_version : String
  asciimd5 : Option String
  optical : OpticalProperties ℚ
  mean_op : M
  emis : E
  sub_mode : SublimationMode
  sub_energy : Option ℚ
deriving DecidableEq

/-- A file system holding dust containers, mapping file names to the
container stored there (`none` when no such file exists). -/
def DustFS (E M : Type) : Type := String → Option (DustTableSet E M)

/-- Embedding of `SphericalDust.write(filename)` (dust_type.py, lines
149-189): compute emissivities (LTE default, with a warning) and mean
opacities if unset, build the container with `version = 1`, `type = 1`,
the `asciimd5` keyword only when `self.md5` is truthy, the sublimation
keywords (energy only for modes slow/fast/cap), and write it to the file
system, recording the file name on the model.  `lte` embeds
`Emissivities.set_lte` and `compute_mean` embeds `MeanOpacities.compute`,
both external collaborators taken as parameters.  The returned `Bool`
records whether the LTE warning was emitted. -/
def SphericalDust.write {E M : Type}
    (lte : OpticalProperties ℚ → E)
    (compute_mean : E → OpticalProperties ℚ → M)
    (m : DustModel E M) (fs : DustFS E M) (filename : String) :
    DustModel E M × DustFS E M × Bool :=
  let warned := m.emissivities.isNone
  let emis := match m.emissivities with
    | some e => e
    | none => lte m.optical_properties
  let mop := match m.mean_opacities with
    | some mo => mo
    | none => compute_mean emis m.optical_properties
  let ts : DustTableSet E M :=
    { version := 1
      typ := 1
      python_version := "hyperion"
      asciimd5 := match m.md5 with
        | some s => if s = "" then none else some s
        | none => none
      optical := m.optical_properties
      mean_op := mop
      emis := emis
      sub_mode := m.sublimation_mode
      sub_energy :=
        if m.sublimation_mode ∈ [SublimationMode.slow, SublimationMode.fast,
            SublimationMode.cap] then
          some m.sublimation_energy
        else
          none }
  let m1 := { m with emissivities := some emis, mean_opacities := some mop,
                     filename := some filename }
  (m1, fun s => if s = filename then some ts else fs s, warned)

/-- Embedding of `SphericalDust.read(filename)` (dust_type.py, lines
191-224), as a state transition returning the final model state together
with the raised exception message, if any.  The steps follow the source
order: existence check, `self.filename = filename`, version check, type
check, `asciimd5` recovery, then restoration of the optical properties,
mean opacities and emissivities from their sub-tables. -/
def SphericalDust.read {E M : Type}
    (fs : DustFS E M) (filename : String) (m : DustModel E M) :
    DustModel E M × Option String :=
  match fs filename with
  | none => (m, some ("File not found: " ++ filename))
  | some ts =>
    let m1 := { m with filename := some filename }
    if ts.version ≠ 1 then
      (m1, some "Version should be 1")
    else if ts.typ ≠ 1 then
      (m1, some "Type should be 1")
    else
      let m2 := { m1 with md5 := ts.asciimd5 }
      let m3 := { m2 with optical_properties := ts.optical }
      let m4 := { m3 with mean_opacities := some ts.mean_op }
      let m5 := { m4 with emissivities := some ts.emis }
      (m5, none)

/-! ## SimpleSphericalDust loader (dust_type.py, lines 251-279) -/

/-- Modelled from the spec: `hyperion.util.constants.c` (the speed of
light in cgs units) is imported from a module that is not among the
source files. -/
noncomputable def cLight : ℝ := 2.99792458e10

/-- Embedding of `np.linspace(a, b, n)`: `n` points
`a + i * (b - a) / (n - 1)` for `i = 0, ..., n-1`. -/
noncomputable def linspace (a b : ℝ) (n : ℕ) : List ℝ :=
  (List.range n).map (fun i : ℕ => a + (i : ℝ) * (b - a) / ((n : ℝ) - 1))

/-- One parsed row of the flat dust table read by
`SimpleSphericalDust.__init__` with `np.loadtxt` (dust_type.py, lines
262-264): columns `wav, c_ext, c_sca, chi, g, p_lin_max`. -/
structure SimpleDustRow where
  wav : ℝ
  c_ext : ℝ
  c_sca : ℝ
  chi : ℝ
  g : ℝ
  p_lin_max : ℝ

/-- Embedding of the table construction in `SimpleSphericalDust.__init__`
(dust_type.py, lines 253-279): `mu = np.linspace(-1, 1, 100)`,
`nu = c / wav * 1e4`, `albedo = c_sca / c_ext`, `chi` taken from the
table, and for each column `i` the matrix columns set from
`henyey_greenstein(mu[i], g, p_lin_max)` applied to the per-row `g` and
`p_lin_max`. -/
noncomputable def simpleSphericalDust (rows : List SimpleDustRow) :
    OpticalProperties ℝ :=
  let mu := linspace (-1) 1 100
  { nu := rows.map (fun r => cLight / r.wav * 1e4)
    mu := mu
    albedo := rows.map (fun r => r.c_sca / r.c_ext)
    chi := rows.map (fun r => r.chi)
    P1 := rows.map (fun r => mu.map
      (fun x => (henyey_greenstein x r.g r.p_lin_max).1))
    P2 := rows.map (fun r => mu.map
      (fun x => (henyey_greenstein x r.g r.p_lin_max).2.1))
    P3 := rows.map (fun r => mu.map
      (fun x => (henyey_greenstein x r.g r.p_lin_max).2.2.1))
    P4 := rows.map (fun r => mu.map
      (fun x => (henyey_greenstein x r.g r.p_lin_max).2.2.2)) }

/-! ## MieXDust NaN repair and wavelength cross-check
(dust_type.py, lines 391-470) -/

/-- A floating-point value of the MieX tables: `none` embeds NaN. -/
def isnan (v : Option ℚ) : Bool := v.isNone

/-- The pairs `(wav[k], values[k])` at positions where `values` is valid
(not NaN); these are the interpolation knots `wav[~invalid]`,
`values[~invalid]` of dust_type.py, line 410. -/
def validPairs (wav : List ℚ) (values : List (Option ℚ)) : List (ℚ × ℚ) :=
  (wav.zip values).filterMap (fun p => p.2.map (fun y => (p.1, y)))

/-- Embedding of the repair assignment
`values[invalid] = interp1d_fast_loglog(wav[~invalid], values[~invalid],
wav[invalid])` (dust_type.py, lines 410 and 468): valid entries are kept,
each invalid entry is replaced by the interpolator evaluated at its
wavelength over the valid knots.  `interp` embeds
`hyperion.util.interpolate.interp1d_fast_loglog`, an external
collaborator taken as a parameter (its output may itself be NaN). -/
def repairValues (interp : List ℚ → List ℚ → ℚ → Option ℚ)
    (wav : List ℚ) (values : List (Option ℚ)) : List (Option ℚ) :=
  let xs := (validPairs wav values).map Prod.fst
  let ys := (validPairs wav values).map Prod.snd
  (wav.zip values).map (fun p => match p.2 with
    | some y => some y
    | none => interp xs ys p.1)

/-- Embedding of the per-quantity NaN check of `MieXDust.__init__`
(dust_type.py, lines 402-412 and 459-470): if any value is NaN, warn and
repair by interpolation; if NaN remains after the repair, raise.  The
`Bool` in the result records whether the warning was emitted. -/
def fixNaN (interp : List ℚ → List ℚ → ℚ → Option ℚ)
    (wav : List ℚ) (values : List (Option ℚ)) :
    Except String (List (Option ℚ) × Bool) :=
  if values.any isnan then
    let repaired := repairValues interp wav values
    if repaired.any isnan then
      Except.error "Did not manage to fix NaN values in MieX"
    else
      Except.ok (repaired, true)
  else
    Except.ok (values, false)

/-- Embedding of the per-column NaN loop of `MieXDust.__init__`
(dust_type.py, lines 459-470): each per-mu column of a matrix is checked
and repaired independently; the first irreparable column raises. -/
def fixNaNCols (interp : List ℚ → List ℚ → ℚ → Option ℚ)
    (wav : List ℚ) : List (List (Option ℚ)) →
    Except String (List (List (Option ℚ)))
  | [] => Except.ok []
  | col :: cols =>
    match fixNaN interp wav col with
    | Except.error e => Except.error e
    | Except.ok (col1, _) =>
      match fixNaNCols interp wav cols with
      | Except.error e => Except.error e
      | Except.ok cols1 => Except.ok (col1 :: cols1)

/-- One per-wavelength block of a MieX companion file (`.f11`, `.f12`,
`.f33`, `.f34`): the wavelength header record followed by the per-angle
values (dust_type.py, lines 441-457). -/
structure MieBlock where
  hdr : ℚ
  vals : List ℚ
deriving DecidableEq, Repr

/-- Embedding of the matrix-reading loop of `MieXDust.__init__`
(dust_type.py, lines 441-457): for each wavelength `wav[j]` in order,
the per-wavelength header of each of the four companion files is
compared with `wav[j]` (in the order f11, f12, f33, f34) and the first
mismatch raises; otherwise the four value blocks are collected.  Running
out of blocks embeds the parse failure of `float()` at end of file. -/
def readMieMatrices : List ℚ → List MieBlock → List MieBlock →
    List MieBlock → List MieBlock →
    Except String (List (List ℚ) × List (List ℚ) × List (List ℚ) ×
      List (List ℚ))
  | [], _, _, _, _ => Except.ok ([], [], [], [])
  | w :: ws, b1 :: t1, b2 :: t2, b3 :: t3, b4 :: t4 =>
    if b1.hdr ≠ w then Except.error "Incorrect wavelength in f11"
    else if b2.hdr ≠ w then Except.error "Incorrect wavelength in f12"
    else if b3.hdr ≠ w then Except.error "Incorrect wavelength in f33"
    else if b4.hdr ≠ w then Except.error "Incorrect wavelength in f34"
    else
      match readMieMatrices ws t1 t2 t3 t4 with
      | Except.error e => Except.error e
      | Except.ok (r1, r2, r3, r4) =>
        Except.ok (b1.vals :: r1, b2.vals :: r2, b3.vals :: r3,
          b4.vals :: r4)
  | _ :: _, _, _, _, _ => Except.error "could not convert string to float"

/-- The wavelength header of the `j`-th per-wavelength block of a MieX
companion file, `none` when the file has fewer blocks. -/
def hdrAt (f : List MieBlock) (j : ℕ) : Option ℚ :=
  (f[j]?).map MieBlock.hdr

/-! ## Filter curve (filter.py) -/

/-- The `domain` argument of the array validator: the filter module uses
`strictly-positive` for `spectral_coord` and `positive` for
`transmission` (filter.py, lines 62 and 77). -/
inductive ValidatorDomain where
  | positive
  | strictlyPositive
deriving DecidableEq, Repr

/-- Modelled from the spec: `validate_array` from
`hyperion.util.validator` is not among the source files; spec section 1
treats the "physical-unit/array-validation helpers" as an external
collaborator specified only at the interface.  Modelled behaviour on the
numeric values of a 1-D array: the `positive` domain admits values
`≥ 0`, the `strictly-positive` domain values `> 0`; when an expected
shape is supplied the array length must equal it; violations raise.
Unit (physical-type) checking has no numeric content and is omitted. -/
def validate_array (domain : ValidatorDomain) (shape : Option ℕ)
    (value : List ℚ) : Except String (List ℚ) :=
  if (match domain with
      | ValidatorDomain.positive => value.all (fun x => 0 ≤ x)
      | ValidatorDomain.strictlyPositive => value.all (fun x => 0 < x)) then
    if value.length = shape.getD value.length then Except.ok value
    else Except.error "r has incorrect shape"
  else
    Except.error "r should be positive"

/-- The in-memory state of a `Filter` (filter.py, class Filter): the
underscore-prefixed instance attributes behind the properties.  `_beta`
(the detector-type exponent) is absent until first assigned, which
`none` embeds; the constructor never sets it (filter.py, lines 30-33). -/
structure Filter where
  name : Option String
  spectral_coord : Option (List ℚ)
  transmission : Option (List ℚ)
  beta : Option ℤ
deriving DecidableEq, Repr

/-- Embedding of the `spectral_coord` property setter (filter.py, lines
57-63): `None` is stored as-is, otherwise the value is validated as a
strictly positive 1-D array with no shape constraint. -/
def Filter.set_spectral_coord (f : Filter) (v : Option (List ℚ)) :
    Except String Filter :=
  match v with
  | none => Except.ok { f with spectral_coord := none }
  | some xs =>
    match validate_array ValidatorDomain.strictlyPositive none xs with
    | Except.error e => Except.error e
    | Except.ok xs1 => Except.ok { f with spectral_coord := some xs1 }

/-- Embedding of the `transmission` property setter (filter.py, lines
72-79): `None` is stored as-is, otherwise the value is validated in the
`positive` domain, with its shape checked against `spectral_coord` only
when `spectral_coord` is currently set. -/
def Filter.set_transmission (f : Filter) (v : Option (List ℚ)) :
    Except String Filter :=
  match v with
  | none => Except.ok { f with transmission := none }
  | some xs =>
    match validate_array ValidatorDomain.positive
        (f.spectral_coord.map List.length) xs with
    | Except.error e => Except.error e
    | Except.ok xs1 => Except.ok { f with transmission := some xs1 }

/-- Embedding of `Filter.__init__(name, spectral_coord, transmission)`
(filter.py, lines 30-33): starting from a bare instance, the three
property setters are invoked in order.  `_beta` is never initialised. -/
def Filter.init (nm : Option String) (sc tr : Option (List ℚ)) :
    Except String Filter :=
  let f0 : Filter :=
    { name := nm, spectral_coord := none, transmission := none,
      beta := none }
  match Filter.set_spectral_coord f0 sc with
  | Except.error e => Except.error e
  | Except.ok f1 =>
    match Filter.set_transmission f1 tr with
    | Except.error e => Except.error e
    | Except.ok f2 => Except.ok f2

/-- Embedding of the `detector_type` property getter (filter.py, lines
98-100): reading before `_beta` was ever assigned raises an attribute
error; otherwise the result is `"energy"` iff `_beta == -1`, else
`"photons"`. -/
def Filter.detector_type (f : Filter) : Except String String :=
  match f.beta with
  | none => Except.error "AttributeError: _beta"
  | some b => Except.ok (if b = -1 then "energy" else "photons")

/-- Embedding of the `detector_type` property setter (filter.py, lines
102-109): `"energy"` stores `_beta = -1`, `"photons"` stores
`_beta = 0`, anything else raises `ValueError` before any assignment. -/
def Filter.set_detector_type (f : Filter) (v : String) :
    Except String Filter :=
  if v = "energy" then Except.ok { f with beta := some (-1) }
  else if v = "photons" then Except.ok { f with beta := some 0 }
  else Except.error "detector_type should be one of energy/photons"

/-- Decidable equality for `Except`, used to evaluate the embedded
fallible operations on concrete inputs. -/
instance {ε α : Type} [DecidableEq ε] [DecidableEq α] :
    DecidableEq (Except ε α) := fun x y =>
  match x, y with
  | Except.error a, Except.error b =>
    if h : a = b then isTrue (by rw [h])
    else isFalse (fun hc => by cases hc; exact h rfl)
  | Except.error _, Except.ok _ => isFalse (fun hc => by cases hc)
  | Except.ok _, Except.error _ => isFalse (fun hc => by cases hc)
  | Except.ok a, Except.ok b =>
    if h : a = b then isTrue (by rw [h])
    else isFalse (fun hc => by cases hc; exact h rfl)

/-! ## Helper lemmas about the Henyey-Greenstein function -/

/-- The Henyey-Greenstein denominator base stays positive for
`mu ∈ [-1, 1]` and `g ∈ (-1, 1)`. -/
lemma hg_denom_pos {mu g : ℝ} (hmu1 : -1 ≤ mu) (hmu2 : mu ≤ 1)
    (hg1 : -1 < g) (hg2 : g < 1) : 0 < 1 + g * g - 2 * g * mu := by
  rcases le_or_lt 0 g with hpos | hneg
  · nlinarith [sq_nonneg (1 - g), mul_nonneg hpos (sub_nonneg.mpr hmu2)]
  · have h1 : (0 : ℝ) ≤ 1 + mu := by linarith
    nlinarith [sq_nonneg (1 + g), mul_nonneg (le_of_lt (neg_pos.mpr hneg)) h1]

/-- The numerator `1 - g * g` is positive for `g ∈ (-1, 1)`. -/
lemma hg_num_pos {g : ℝ} (hg1 : -1 < g) (hg2 : g < 1) : 0 < 1 - g * g := by
  nlinarith

/-- The first component of `henyey_greenstein` is positive under the
documented parameter ranges. -/
lemma hg_P1_pos {mu g : ℝ} (p_lin_max : ℝ) (hmu1 : -1 ≤ mu) (hmu2 : mu ≤ 1)
    (hg1 : -1 < g) (hg2 : g < 1) :
    0 < (henyey_greenstein mu g p_lin_max).1 := by
  have hd := hg_denom_pos hmu1 hmu2 hg1 hg2
  have hn := hg_num_pos hg1 hg2
  exact div_pos hn (Real.rpow_pos_of_pos hd _)

/-- At `g = 0` the first component of `henyey_greenstein` is `1`. -/
lemma hg_P1_at_zero (mu p_lin_max : ℝ) :
    (henyey_greenstein mu 0 p_lin_max).1 = 1 := by
  simp [henyey_greenstein, Real.one_rpow]

/-- At `g = 0` the second component of `henyey_greenstein` is
`-p_lin_max * (1 - mu^2) / (1 + mu^2)`; it does not vanish in general. -/
lemma hg_P2_at_zero (mu p_lin_max : ℝ) :
    (henyey_greenstein mu 0 p_lin_max).2.1
      = - p_lin_max * (1 - mu * mu) / (1 + mu * mu) := by
  simp [henyey_greenstein, Real.one_rpow]

/-- At `g = 0` the third component of `henyey_greenstein` is
`2 * mu / (1 + mu^2)`; it does not vanish in general. -/
lemma hg_P3_at_zero (mu p_lin_max : ℝ) :
    (henyey_greenstein mu 0 p_lin_max).2.2.1 = 2 * mu / (1 + mu * mu) := by
  simp [henyey_greenstein, Real.one_rpow]

/-! ## Helper lemmas about the MieX NaN repair -/

/-- A successful `fixNaN` returns NaN-free values: the input unchanged
when it had no NaN (no warning), and the interpolation repair of the
input when it had NaN (with a warning). -/
lemma fixNaN_ok_spec (interp : List ℚ → List ℚ → ℚ → Option ℚ)
    (wav : List ℚ) (values vs : List (Option ℚ)) (warned : Bool)
    (h : fixNaN interp wav values = Except.ok (vs, warned)) :
    vs.any isnan = false ∧ warned = values.any isnan ∧
    (warned = true → vs = repairValues interp wav values) ∧
    (warned = false → vs = values) := by
  unfold fixNaN at h
  by_cases h1 : values.any isnan = true
  · rw [if_pos h1] at h
    by_cases h2 : (repairValues interp wav values).any isnan = true
    · rw [if_pos h2] at h
      simp at h
    · rw [if_neg h2] at h
      simp only [Except.ok.injEq, Prod.mk.injEq] at h
      obtain ⟨hv, hw⟩ := h
      subst hv
      subst hw
      refine ⟨by simpa using h2, by rw [h1], fun _ => rfl, fun hc => by simp at hc⟩
  · rw [if_neg h1] at h
    simp only [Except.ok.injEq, Prod.mk.injEq] at h
    obtain ⟨hv, hw⟩ := h
    subst hv
    subst hw
    refine ⟨by simpa using h1, by simpa using (by simpa using h1 : values.any isnan = false).symm,
      fun hc => by simp at hc, fun _ => rfl⟩

/-- A failing `fixNaN` means the input had NaN and the interpolation
repair still left NaN. -/
lemma fixNaN_error_spec (interp : List ℚ → List ℚ → ℚ → Option ℚ)
    (wav : List ℚ) (values : List (Option ℚ)) (e : String)
    (h : fixNaN interp wav values = Except.error e) :
    values.any isnan = true ∧
    (repairValues interp wav values).any isnan = true := by
  unfold fixNaN at h
  by_cases h1 : values.any isnan = true
  · rw [if_pos h1] at h
    by_cases h2 : (repairValues interp wav values).any isnan = true
    · exact ⟨h1, h2⟩
    · rw [if_neg h2] at h
      simp at h
  · rw [if_neg h1] at h
    simp at h

/-- A successful per-column NaN pass returns only NaN-free columns. -/
lemma fixNaNCols_ok_spec (interp : List ℚ → List ℚ → ℚ → Option ℚ)
    (wav : List ℚ) : ∀ (cols cols1 : List (List (Option ℚ))),
    fixNaNCols interp wav cols = Except.ok cols1 →
    cols1.length = cols.length ∧ ∀ col ∈ cols1, col.any isnan = false := by
  intro cols
  induction cols with
  | nil =>
    intro cols1 h
    simp only [fixNaNCols, Except.ok.injEq] at h
    subst h
    exact ⟨rfl, by simp⟩
  | cons col cols ih =>
    intro cols1 h
    simp only [fixNaNCols] at h
    cases hf : fixNaN interp wav col with
    | error e => rw [hf] at h; simp at h
    | ok p =>
      rw [hf] at h
      cases hr : fixNaNCols interp wav cols with
      | error e => rw [hr] at h; simp at h
      | ok cols2 =>
        rw [hr] at h
        simp only [Except.ok.injEq] at h
        subst h
        obtain ⟨hlen, hall⟩ := ih cols2 hr
        obtain ⟨hhead, -, -, -⟩ := fixNaN_ok_spec interp wav col p.1 p.2
          (by rw [hf])
        refine ⟨by simp [hlen], ?_⟩
        intro c hc
        rcases List.mem_cons.mp hc with hc1 | hc2
        · rw [hc1]; exact hhead
        · exact hall c hc2

/-- A failing per-column NaN pass is caused by some irreparable
column. -/
lemma fixNaNCols_error_spec (interp : List ℚ → List ℚ → ℚ → Option ℚ)
    (wav : List ℚ) : ∀ (cols : List (List (Option ℚ))) (e : String),
    fixNaNCols interp wav cols = Except.error e →
    ∃ col ∈ cols, fixNaN interp wav col = Except.error e := by
  intro cols
  induction cols with
  | nil => intro e h; simp [fixNaNCols] at h
  | cons col cols ih =>
    intro e h
    simp only [fixNaNCols] at h
    cases hf : fixNaN interp wav col with
    | error e1 =>
      rw [hf] at h
      simp only [Except.error.injEq] at h
      exact ⟨col, List.mem_cons_self col cols, by rw [hf, h]⟩
    | ok p =>
      rw [hf] at h
      cases hr : fixNaNCols interp wav cols with
      | error e1 =>
        rw [hr] at h
        simp only [Except.error.injEq] at h
        obtain ⟨c, hc, he⟩ := ih e1 hr
        exact ⟨c, List.mem_cons_of_mem col hc, by rw [he, h]⟩
      | ok cols2 => rw [hr] at h; simp at h

/-! ## Helper lemmas about the MieX wavelength cross-check -/

lemma hdrAt_cons_zero (b : MieBlock) (t : List MieBlock) :
    hdrAt (b :: t) 0 = some b.hdr := by
  simp [hdrAt]

lemma hdrAt_cons_succ (b : MieBlock) (t : List MieBlock) (j : ℕ) :
    hdrAt (b :: t) (j + 1) = hdrAt t j := by
  simp [hdrAt]

/-- When every per-wavelength header of the four companion files matches
the shared wavelength axis, the matrix read succeeds and collects the
value blocks of the four files. -/
lemma readMie_ok_of_match : ∀ (wav : List ℚ) (f1 f2 f3 f4 : List MieBlock),
    f1.length = wav.length → f2.length = wav.length →
    f3.length = wav.length → f4.length = wav.length →
    (∀ j, j < wav.length →
      (hdrAt f1 j = wav[j]? ∧ hdrAt f2 j = wav[j]? ∧
       hdrAt f3 j = wav[j]? ∧ hdrAt f4 j = wav[j]?)) →
    readMieMatrices wav f1 f2 f3 f4 = Except.ok
      (f1.map MieBlock.vals, f2.map MieBlock.vals, f3.map MieBlock.vals,
       f4.map MieBlock.vals) := by
  intro wav
  induction wav with
  | nil =>
    intro f1 f2 f3 f4 h1 h2 h3 h4 _
    rw [List.eq_nil_of_length_eq_zero h1, List.eq_nil_of_length_eq_zero h2,
      List.eq_nil_of_length_eq_zero h3, List.eq_nil_of_length_eq_zero h4]
    simp [readMieMatrices]
  | cons w ws ih =>
    intro f1 f2 f3 f4 h1 h2 h3 h4 hm
    cases f1 with
    | nil => simp at h1
    | cons b1 t1 =>
      cases f2 with
      | nil => simp at h2
      | cons b2 t2 =>
        cases f3 with
        | nil => simp at h3
        | cons b3 t3 =>
          cases f4 with
          | nil => simp at h4
          | cons b4 t4 =>
            have h0 := hm 0 (by simp)
            rw [hdrAt_cons_zero, hdrAt_cons_zero, hdrAt_cons_zero,
              hdrAt_cons_zero] at h0
            simp only [List.getElem?_cons_zero, Option.some.injEq] at h0
            obtain ⟨e1, e2, e3, e4⟩ := h0
            have hrec := ih t1 t2 t3 t4 (by simpa using h1)
              (by simpa using h2) (by simpa using h3) (by simpa using h4)
              (fun j hj => by
                have := hm (j + 1) (by simpa using Nat.succ_lt_succ hj)
                simpa [hdrAt_cons_succ, List.getElem?_cons_succ] using this)
            simp [readMieMatrices, e1, e2, e3, e4, hrec]

/-- At the first index where some companion file's header disagrees with
the wavelength axis, the matrix read aborts with the error naming the
first disagreeing file (checked in the order f11, f12, f33, f34). -/
lemma readMie_error_of_first_mismatch :
    ∀ (wav : List ℚ) (f1 f2 f3 f4 : List MieBlock) (j : ℕ),
    f1.length = wav.length → f2.length = wav.length →
    f3.length = wav.length → f4.length = wav.length →
    j < wav.length →
    (∀ i, i < j →
      (hdrAt f1 i = wav[i]? ∧ hdrAt f2 i = wav[i]? ∧
       hdrAt f3 i = wav[i]? ∧ hdrAt f4 i = wav[i]?)) →
    ¬(hdrAt f1 j = wav[j]? ∧ hdrAt f2 j = wav[j]? ∧
      hdrAt f3 j = wav[j]? ∧ hdrAt f4 j = wav[j]?) →
    readMieMatrices wav f1 f2 f3 f4 = Except.error
      (if hdrAt f1 j = wav[j]? then
         if hdrAt f2 j = wav[j]? then
           if hdrAt f3 j = wav[j]? then "Incorrect wavelength in f34"
           else "Incorrect wavelength in f33"
         else "Incorrect wavelength in f12"
       else "Incorrect wavelength in f11") := by
  intro wav
  induction wav with
  | nil =>
    intro f1 f2 f3 f4 j _ _ _ _ hj _ _
    exact absurd hj (by simp)
  | cons w ws ih =>
    intro f1 f2 f3 f4 j h1 h2 h3 h4 hj hprev hmis
    cases f1 with
    | nil => simp at h1
    | cons b1 t1 =>
      cases f2 with
      | nil => simp at h2
      | cons b2 t2 =>
        cases f3 with
        | nil => simp at h3
        | cons b3 t3 =>
          cases f4 with
          | nil => simp at h4
          | cons b4 t4 =>
            cases j with
            | zero =>
              simp only [hdrAt_cons_zero, List.getElem?_cons_zero,
                Option.some.injEq] at hmis ⊢
              by_cases e1 : b1.hdr = w
              · by_cases e2 : b2.hdr = w
                · by_cases e3 : b3.hdr = w
                  · by_cases e4 : b4.hdr = w
                    · exact absurd ⟨e1, e2, e3, e4⟩ hmis
                    · simp [readMieMatrices, e1, e2, e3, e4]
                  · simp [readMieMatrices, e1, e2, e3]
                · simp [readMieMatrices, e1, e2]
              · simp [readMieMatrices, e1]
            | succ j =>
              have h0 := hprev 0 (Nat.succ_pos j)
              rw [hdrAt_cons_zero, hdrAt_cons_zero, hdrAt_cons_zero,
                hdrAt_cons_zero] at h0
              simp only [List.getElem?_cons_zero, Option.some.injEq] at h0
              obtain ⟨e1, e2, e3, e4⟩ := h0
              have hrec := ih t1 t2 t3 t4 j (by simpa using h1)
                (by simpa using h2) (by simpa using h3) (by simpa using h4)
                (by simpa using hj)
                (fun i hi => by
                  have := hprev (i + 1) (Nat.succ_lt_succ hi)
                  simpa [hdrAt_cons_succ, List.getElem?_cons_succ] using this)
                (by
                  intro hc
                  exact hmis (by
                    simpa [hdrAt_cons_succ, List.getElem?_cons_succ] using hc))
              simp only [hdrAt_cons_succ, List.getElem?_cons_succ]
              simp [readMieMatrices, e1, e2, e3, e4, hrec]

/-! ## Helper lemmas about the SimpleSphericalDust mu grid -/

/-- The 100-point grid `np.linspace(-1, 1, 100)` consists of the evenly
spaced values `-1 + i * (2/99)`. -/
lemma linspace_neg_one_one_100 :
    linspace (-1) 1 100
      = (List.range 100).map (fun i : ℕ => -1 + (i : ℝ) * (2 / 99)) := by
  unfold linspace
  refine List.map_congr_left ?_
  intro i _
  norm_num
  ring

/-! ## Claim C3 -/

/-- C3: for every `mu ∈ [-1, 1]`, every `g` in the open interval
`(-1, 1)` and every `p_lin_max`, `henyey_greenstein mu g p_lin_max`
returns exactly `P1 = (1 - g^2) / (1 + g^2 - 2*g*mu)^1.5`,
`P2 = -p_lin_max * P1 * (1 - mu^2) / (1 + mu^2)`,
`P3 = P1 * 2*mu / (1 + mu^2)` and `P4 = 0`, with no error condition:
the denominator base is positive, hence bounded away from zero, under
these hypotheses. -/
theorem henyey_greenstein_matches_spec_formulas (mu g p_lin_max : ℝ)
    (hmu1 : -1 ≤ mu) (hmu2 : mu ≤ 1) (hg1 : -1 < g) (hg2 : g < 1) :
    0 < 1 + g ^ 2 - 2 * g * mu ∧
    henyey_greenstein mu g p_lin_max =
      ((1 - g ^ 2) / (1 + g ^ 2 - 2 * g * mu) ^ (1.5 : ℝ),
       - p_lin_max * ((1 - g ^ 2) / (1 + g ^ 2 - 2 * g * mu) ^ (1.5 : ℝ))
         * (1 - mu ^ 2) / (1 + mu ^ 2),
       ((1 - g ^ 2) / (1 + g ^ 2 - 2 * g * mu) ^ (1.5 : ℝ)) * 2 * mu
         / (1 + mu ^ 2),
       0) := by
  have e1 : 1 + g * g - 2 * g * mu = 1 + g ^ 2 - 2 * g * mu := by ring
  have e2 : 1 - g * g = 1 - g ^ 2 := by ring
  have e3 : 1 - mu * mu = 1 - mu ^ 2 := by ring
  have e4 : 1 + mu * mu = 1 + mu ^ 2 := by ring
  constructor
  · have h := hg_denom_pos hmu1 hmu2 hg1 hg2
    rw [e1] at h
    exact h
  · simp only [henyey_greenstein, e1, e2, e3, e4]

/-- Witness for C3 at `mu = 0`, `g = 0`, `p_lin_max = 0`. -/
theorem henyey_greenstein_matches_spec_formulas_witness :
    ((-1 : ℝ) ≤ 0) ∧ ((0 : ℝ) ≤ 1) ∧ ((-1 : ℝ) < 0) ∧ ((0 : ℝ) < 1) ∧
    (0 < 1 + (0 : ℝ) ^ 2 - 2 * 0 * 0 ∧
     henyey_greenstein 0 0 0 =
       ((1 - (0 : ℝ) ^ 2) / (1 + (0 : ℝ) ^ 2 - 2 * 0 * 0) ^ (1.5 : ℝ),
        - (0 : ℝ) * ((1 - (0 : ℝ) ^ 2)
           / (1 + (0 : ℝ) ^ 2 - 2 * 0 * 0) ^ (1.5 : ℝ))
          * (1 - (0 : ℝ) ^ 2) / (1 + (0 : ℝ) ^ 2),
        ((1 - (0 : ℝ) ^ 2) / (1 + (0 : ℝ) ^ 2 - 2 * 0 * 0) ^ (1.5 : ℝ))
          * 2 * 0 / (1 + (0 : ℝ) ^ 2),
        0)) :=
  ⟨by norm_num, by norm_num, by norm_num, by norm_num,
   henyey_greenstein_matches_spec_formulas 0 0 0 (by norm_num) (by norm_num)
     (by norm_num) (by norm_num)⟩

/-! ## Claim C4 -/

/-- C4 counterexample: at `mu = 0`, `g = 0`, `p_lin_max = 1` the second
component of `henyey_greenstein` is `-1`, not `0`, refuting the claim
that at `g = 0` the function yields `P2 == 0` for every `mu` and every
`p_lin_max`. -/
theorem henyey_greenstein_P2_nonzero_at_g_zero :
    (henyey_greenstein 0 0 1).2.1 = -1 ∧ (henyey_greenstein 0 0 1).2.1 ≠ 0 := by
  have h := hg_P2_at_zero 0 1
  norm_num at h
  exact ⟨h, by rw [h]; norm_num⟩

/-- C4 (amended): for all `g ∈ (-1, 1)` and `mu ∈ [-1, 1]`,
`henyey_greenstein` yields `P4 == 0` and `P1 > 0`; at `g = 0` it yields
`P1 == 1` for every `mu` and every `p_lin_max`, while
`P2 = -p_lin_max * (1 - mu^2) / (1 + mu^2)` and
`P3 = 2 * mu / (1 + mu^2)` (these vanish only for `p_lin_max = 0` or
`mu = ±1`, respectively `mu = 0`, not for all `mu`). -/
theorem henyey_greenstein_sign_and_isotropic_limit (mu g p_lin_max : ℝ)
    (hmu1 : -1 ≤ mu) (hmu2 : mu ≤ 1) (hg1 : -1 < g) (hg2 : g < 1) :
    (henyey_greenstein mu g p_lin_max).2.2.2 = 0 ∧
    0 < (henyey_greenstein mu g p_lin_max).1 ∧
    (henyey_greenstein mu 0 p_lin_max).1 = 1 ∧
    (henyey_greenstein mu 0 p_lin_max).2.1
      = - p_lin_max * (1 - mu * mu) / (1 + mu * mu) ∧
    (henyey_greenstein mu 0 p_lin_max).2.2.1 = 2 * mu / (1 + mu * mu) :=
  ⟨rfl, hg_P1_pos p_lin_max hmu1 hmu2 hg1 hg2, hg_P1_at_zero mu p_lin_max,
   hg_P2_at_zero mu p_lin_max, hg_P3_at_zero mu p_lin_max⟩

/-- Witness for the amended C4 at `mu = 0`, `g = 0`, `p_lin_max = 1`. -/
theorem henyey_greenstein_sign_and_isotropic_limit_witness :
    ((-1 : ℝ) ≤ 0) ∧ ((0 : ℝ) ≤ 1) ∧ ((-1 : ℝ) < 0) ∧ ((0 : ℝ) < 1) ∧
    ((henyey_greenstein 0 0 1).2.2.2 = 0 ∧
     0 < (henyey_greenstein 0 0 1).1 ∧
     (henyey_greenstein 0 0 1).1 = 1 ∧
     (henyey_greenstein 0 0 1).2.1 = - 1 * (1 - 0 * 0) / (1 + 0 * 0) ∧
     (henyey_greenstein 0 0 1).2.2.1 = 2 * 0 / (1 + 0 * 0)) :=
  ⟨by norm_num, by norm_num, by norm_num, by norm_num,
   henyey_greenstein_sign_and_isotropic_limit 0 0 1 (by norm_num)
     (by norm_num) (by norm_num) (by norm_num)⟩

/-! ## Claim C1 -/

/-- C1 counterexample: a model whose sublimation mode is `fast` with
threshold `5` is written and read back into a fresh model; the read
succeeds but the resulting model has sublimation mode `no` and threshold
`0` — `SphericalDust.read` never restores the sublimation keywords, so
the round trip does not preserve the sublimation mode or threshold. -/
theorem write_read_loses_sublimation :
    (let m : DustModel Unit Unit :=
       { DustModel.fresh Unit Unit with
           sublimation_mode := SublimationMode.fast,
           sublimation_energy := 5 }
     let w := SphericalDust.write (fun _ => ()) (fun _ _ => ()) m
       (fun _ => none) "d.hdf5"
     let r := SphericalDust.read w.2.1 "d.hdf5" (DustModel.fresh Unit Unit)
     r.2 = none ∧
     m.sublimation_mode = SublimationMode.fast ∧
     r.1.sublimation_mode = SublimationMode.no ∧
     r.1.sublimation_mode ≠ m.sublimation_mode ∧
     r.1.sublimation_energy ≠ m.sublimation_energy) := by
  decide

/-- C1 (amended): writing any dust model with `write(filename)` and then
reading that file back with `read(filename)` into any target model
succeeds, validates the container's version and type tags (both equal
`1`), and yields identical `nu`, `mu`, `albedo`, `chi` and phase
matrices `P1-P4`; the sublimation mode and threshold, however, are not
restored by `read` — the read model keeps its own prior sublimation
state (the default `no`/`0` for a freshly constructed model). -/
theorem write_read_roundtrip (E M : Type)
    (lte : OpticalProperties ℚ → E)
    (compute_mean : E → OpticalProperties ℚ → M)
    (m : DustModel E M) (fs : DustFS E M) (fname : String)
    (m0 : DustModel E M) :
    (SphericalDust.read
        (SphericalDust.write lte compute_mean m fs fname).2.1 fname m0).2
      = none ∧
    (SphericalDust.read
        (SphericalDust.write lte compute_mean m fs fname).2.1 fname
        m0).1.optical_properties = m.optical_properties ∧
    (SphericalDust.read
        (SphericalDust.write lte compute_mean m fs fname).2.1 fname
        m0).1.filename = some fname ∧
    (SphericalDust.read
        (SphericalDust.write lte compute_mean m fs fname).2.1 fname
        m0).1.sublimation_mode = m0.sublimation_mode ∧
    (SphericalDust.read
        (SphericalDust.write lte compute_mean m fs fname).2.1 fname
        m0).1.sublimation_energy = m0.sublimation_energy ∧
    (∀ ts, (SphericalDust.write lte compute_mean m fs fname).2.1 fname
        = some ts → ts.version = 1 ∧ ts.typ = 1) := by
  simp [SphericalDust.write, SphericalDust.read]

/-- Witness for the amended C1 on a concrete populated model, fresh
target model and concrete container. -/
theorem write_read_roundtrip_witness :
    (let m : DustModel Unit Unit :=
       { DustModel.fresh Unit Unit with
           md5 := some "abc",
           optical_properties :=
             { nu := [1, 2], mu := [-1, 1], albedo := [1/2, 1/4],
               chi := [3, 4], P1 := [[1, 1], [1, 1]],
               P2 := [[0, 0], [0, 0]], P3 := [[1, 1], [1, 1]],
               P4 := [[0, 0], [0, 0]] },
           sublimation_mode := SublimationMode.fast,
           sublimation_energy := 5 }
     let w := SphericalDust.write (fun _ => ()) (fun _ _ => ()) m
       (fun _ => none) "d.hdf5"
     let r := SphericalDust.read w.2.1 "d.hdf5" (DustModel.fresh Unit Unit)
     r.2 = none ∧
     r.1.optical_properties = m.optical_properties ∧
     r.1.filename = some "d.hdf5" ∧
     r.1.sublimation_mode = (DustModel.fresh Unit Unit).sublimation_mode ∧
     r.1.sublimation_energy = (DustModel.fresh Unit Unit).sublimation_energy) := by
  have h := write_read_roundtrip Unit Unit (fun _ => ()) (fun _ _ => ())
    { DustModel.fresh Unit Unit with
        md5 := some "abc",
        optical_properties :=
          { nu := [1, 2], mu := [-1, 1], albedo := [1/2, 1/4],
            chi := [3, 4], P1 := [[1, 1], [1, 1]],
            P2 := [[0, 0], [0, 0]], P3 := [[1, 1], [1, 1]],
            P4 := [[0, 0], [0, 0]] },
        sublimation_mode := SublimationMode.fast,
        sublimation_energy := 5 }
    (fun _ => none) "d.hdf5" (DustModel.fresh Unit Unit)
  exact ⟨h.1, h.2.1, h.2.2.1, h.2.2.2.1, h.2.2.2.2.1⟩

/-! ## Claim C2 -/

/-- C2 counterexample: reading a version-2-tagged container into a fresh
model raises the fatal version error, but only after the model's
`filename` field has already been overwritten with the new path — the
read attempt is not all-or-nothing over every field of the target
model. -/
theorem read_version2_overwrites_filename :
    (let ts : DustTableSet Unit Unit :=
       { version := 2, typ := 1, python_version := "hyperion",
         asciimd5 := none,
         optical := { nu := [], mu := [], albedo := [], chi := [],
                      P1 := [], P2 := [], P3 := [], P4 := [] },
         mean_op := (), emis := (),
         sub_mode := SublimationMode.no, sub_energy := none }
     let fs : DustFS Unit Unit :=
       fun s => if s = "bad.hdf5" then some ts else none
     let r := SphericalDust.read fs "bad.hdf5" (DustModel.fresh Unit Unit)
     r.2 = some "Version should be 1" ∧
     (DustModel.fresh Unit Unit).filename = none ∧
     r.1.filename = some "bad.hdf5" ∧
     r.1 ≠ DustModel.fresh Unit Unit) := by
  decide

/-- C2 (amended): `SphericalDust.read` validates that the container's
version and type keywords equal `1` and raises a fatal error otherwise;
on such a failure no field of the target model other than `filename` is
modified — `filename`, however, is overwritten with the offending path
before the validation runs. -/
theorem read_rejects_bad_version_or_type (E M : Type)
    (fs : DustFS E M) (fname : String) (m : DustModel E M)
    (ts : DustTableSet E M) (hfs : fs fname = some ts)
    (hbad : ts.version ≠ 1 ∨ ts.typ ≠ 1) :
    (SphericalDust.read fs fname m).2.isSome = true ∧
    (SphericalDust.read fs fname m).1 = { m with filename := some fname } := by
  unfold SphericalDust.read
  rw [hfs]
  by_cases h1 : ts.version = 1
  · have h2 : ts.typ ≠ 1 := by
      rcases hbad with h | h
      · exact absurd h1 h
      · exact h
    simp [h1, h2]
  · simp [h1]

/-- Witness for the amended C2 on a concrete version-2 container and a
fresh target model. -/
theorem read_rejects_bad_version_or_type_witness :
    ((fun s => if s = "bad.hdf5" then
        some ({ version := 2, typ := 1, python_version := "hyperion",
                asciimd5 := none,
                optical := { nu := [], mu := [], albedo := [], chi := [],
                             P1 := [], P2 := [], P3 := [], P4 := [] },
                mean_op := (), emis := (),
                sub_mode := SublimationMode.no, sub_energy := none } :
          DustTableSet Unit Unit)
      else none) "bad.hdf5" = some
        { version := 2, typ := 1, python_version := "hyperion",
          asciimd5 := none,
          optical := { nu := [], mu := [], albedo := [], chi := [],
                       P1 := [], P2 := [], P3 := [], P4 := [] },
          mean_op := (), emis := (),
          sub_mode := SublimationMode.no, sub_energy := none }) ∧
    ((2 : ℤ) ≠ 1 ∨ (1 : ℤ) ≠ 1) ∧
    ((SphericalDust.read
        (fun s => if s = "bad.hdf5" then
          some ({ version := 2, typ := 1, python_version := "hyperion",
                  asciimd5 := none,
                  optical := { nu := [], mu := [], albedo := [], chi := [],
                               P1 := [], P2 := [], P3 := [], P4 := [] },
                  mean_op := (), emis := (),
                  sub_mode := SublimationMode.no, sub_energy := none } :
            DustTableSet Unit Unit)
        else none) "bad.hdf5" (DustModel.fresh Unit Unit)).2.isSome = true ∧
     (SphericalDust.read
        (fun s => if s = "bad.hdf5" then
          some ({ version := 2, typ := 1, python_version := "hyperion",
                  asciimd5 := none,
                  optical := { nu := [], mu := [], albedo := [], chi := [],
                               P1 := [], P2 := [], P3 := [], P4 := [] },
                  mean_op := (), emis := (),
                  sub_mode := SublimationMode.no, sub_energy := none } :
            DustTableSet Unit Unit)
        else none) "bad.hdf5" (DustModel.fresh Unit Unit)).1
       = { DustModel.fresh Unit Unit with filename := some "bad.hdf5" }) :=
  ⟨by decide, Or.inl (by decide),
   read_rejects_bad_version_or_type Unit Unit _ "bad.hdf5"
     (DustModel.fresh Unit Unit)
     { version := 2, typ := 1, python_version := "hyperion",
       asciimd5 := none,
       optical := { nu := [], mu := [], albedo := [], chi := [],
                    P1 := [], P2 := [], P3 := [], P4 := [] },
       mean_op := (), emis := (),
       sub_mode := SublimationMode.no, sub_energy := none }
     (by decide) (Or.inl (by decide))⟩

/-! ## Claim C5 -/

/-- C5: when a MieX quantity (`chi`, `albedo`, or a per-mu matrix
column) contains NaN entries, the loader repairs it by interpolating the
invalid wavelengths over the surrounding valid ones, surfacing only a
non-fatal warning (the returned flag); a quantity without NaN passes
through unchanged and unwarned; and whenever any NaN remains after the
repair, the loader raises an exception instead of returning values still
containing NaN — for any interpolator `interp` standing for the external
`interp1d_fast_loglog`. -/
theorem mieX_nan_repair_policy (interp : List ℚ → List ℚ → ℚ → Option ℚ)
    (wav : List ℚ) :
    (∀ values vs warned,
        fixNaN interp wav values = Except.ok (vs, warned) →
        vs.any isnan = false ∧ warned = values.any isnan ∧
        (warned = true → vs = repairValues interp wav values) ∧
        (warned = false → vs = values)) ∧
    (∀ values e, fixNaN interp wav values = Except.error e →
        values.any isnan = true ∧
        (repairValues interp wav values).any isnan = true) ∧
    (∀ cols cols1, fixNaNCols interp wav cols = Except.ok cols1 →
        cols1.length = cols.length ∧
        ∀ col ∈ cols1, col.any isnan = false) ∧
    (∀ cols e, fixNaNCols interp wav cols = Except.error e →
        ∃ col ∈ cols, fixNaN interp wav col = Except.error e) :=
  ⟨fun values vs warned h => fixNaN_ok_spec interp wav values vs warned h,
   fun values e h => fixNaN_error_spec interp wav values e h,
   fixNaNCols_ok_spec interp wav,
   fixNaNCols_error_spec interp wav⟩

/-- Witness for C5 on a concrete interpolator and a sequence with one
interior NaN: the repair succeeds with a warning and the result is
NaN-free. -/
theorem mieX_nan_repair_policy_witness :
    fixNaN (fun _ _ _ => some 7) [1, 2, 3] [some 1, none, some 9]
      = Except.ok ([some 1, some 7, some 9], true) ∧
    (([some 1, some 7, some 9] : List (Option ℚ)).any isnan = false ∧
     true = ([some 1, none, some 9] : List (Option ℚ)).any isnan ∧
     (true = true → ([some 1, some 7, some 9] : List (Option ℚ))
        = repairValues (fun _ _ _ => some 7) [1, 2, 3]
            [some 1, none, some 9]) ∧
     (true = false → ([some 1, some 7, some 9] : List (Option ℚ))
        = [some 1, none, some 9])) :=
  ⟨by decide,
   (mieX_nan_repair_policy (fun _ _ _ => some 7) [1, 2, 3]).1
     [some 1, none, some 9] [some 1, some 7, some 9] true (by decide)⟩

/-! ## Claim C6 -/

/-- C6: `MieXDust` checks, for every wavelength index `j`, that the
per-wavelength header record of each of the four companion files
(`.f11`, `.f12`, `.f33`, `.f34`) equals the shared wavelength-axis value
`wav[j]`: when all headers match, the matrices are read; on any
mismatch, the read aborts with the exception naming the first
mismatching file (files checked in the order f11, f12, f33, f34 at the
first mismatching index), so no model is constructed from misaligned
companion files. -/
theorem mieX_wavelength_crosscheck (wav : List ℚ)
    (f1 f2 f3 f4 : List MieBlock)
    (h1 : f1.length = wav.length) (h2 : f2.length = wav.length)
    (h3 : f3.length = wav.length) (h4 : f4.length = wav.length) :
    ((∀ j, j < wav.length →
        (hdrAt f1 j = wav[j]? ∧ hdrAt f2 j = wav[j]? ∧
         hdrAt f3 j = wav[j]? ∧ hdrAt f4 j = wav[j]?)) →
      readMieMatrices wav f1 f2 f3 f4 = Except.ok
        (f1.map MieBlock.vals, f2.map MieBlock.vals,
         f3.map MieBlock.vals, f4.map MieBlock.vals)) ∧
    (∀ j, j < wav.length →
      (∀ i, i < j →
        (hdrAt f1 i = wav[i]? ∧ hdrAt f2 i = wav[i]? ∧
         hdrAt f3 i = wav[i]? ∧ hdrAt f4 i = wav[i]?)) →
      ¬(hdrAt f1 j = wav[j]? ∧ hdrAt f2 j = wav[j]? ∧
        hdrAt f3 j = wav[j]? ∧ hdrAt f4 j = wav[j]?) →
      readMieMatrices wav f1 f2 f3 f4 = Except.error
        (if hdrAt f1 j = wav[j]? then
           if hdrAt f2 j = wav[j]? then
             if hdrAt f3 j = wav[j]? then "Incorrect wavelength in f34"
             else "Incorrect wavelength in f33"
           else "Incorrect wavelength in f12"
         else "Incorrect wavelength in f11")) :=
  ⟨readMie_ok_of_match wav f1 f2 f3 f4 h1 h2 h3 h4,
   fun j hj hprev hmis =>
     readMie_error_of_first_mismatch wav f1 f2 f3 f4 j h1 h2 h3 h4 hj
       hprev hmis⟩

/-- Witness for C6 on two concrete wavelengths with matching companion
files (success branch of the cross-check). -/
theorem mieX_wavelength_crosscheck_witness :
    ([⟨1, [10, 11]⟩, ⟨2, [20, 21]⟩] : List MieBlock).length
      = ([1, 2] : List ℚ).length ∧
    readMieMatrices [1, 2]
      [⟨1, [10, 11]⟩, ⟨2, [20, 21]⟩] [⟨1, [12, 13]⟩, ⟨2, [22, 23]⟩]
      [⟨1, [14, 15]⟩, ⟨2, [24, 25]⟩] [⟨1, [16, 17]⟩, ⟨2, [26, 27]⟩]
      = Except.ok ([[10, 11], [20, 21]], [[12, 13], [22, 23]],
          [[14, 15], [24, 25]], [[16, 17], [26, 27]]) :=
  ⟨by decide,
   (mieX_wavelength_crosscheck [1, 2]
      [⟨1, [10, 11]⟩, ⟨2, [20, 21]⟩] [⟨1, [12, 13]⟩, ⟨2, [22, 23]⟩]
      [⟨1, [14, 15]⟩, ⟨2, [24, 25]⟩] [⟨1, [16, 17]⟩, ⟨2, [26, 27]⟩]
      (by decide) (by decide) (by decide) (by decide)).1 (by decide)⟩

/-! ## Claim C7 -/

/-- C7: for every parsed input table, `SimpleSphericalDust` builds a
table whose `mu` is the grid of 100 evenly spaced scattering cosines
`-1 + i * (2/99)` running from `-1` (index 0) to `+1` (index 99), whose
`albedo` is `c_sca / c_ext` per wavelength row, whose `chi` is the
table's `chi` column, and whose matrices have, at row `j` and column
`i`, the components of `henyey_greenstein (mu[i]) g_j p_lin_max_j` for
the row's `g` and `p_lin_max`. -/
theorem simple_dust_table_construction (rows : List SimpleDustRow) :
    (simpleSphericalDust rows).mu
      = (List.range 100).map (fun i : ℕ => -1 + (i : ℝ) * (2 / 99)) ∧
    (simpleSphericalDust rows).mu.length = 100 ∧
    (simpleSphericalDust rows).mu[0]? = some ((-1 : ℝ)) ∧
    (simpleSphericalDust rows).mu[99]? = some ((1 : ℝ)) ∧
    (simpleSphericalDust rows).albedo
      = rows.map (fun r => r.c_sca / r.c_ext) ∧
    (simpleSphericalDust rows).chi = rows.map SimpleDustRow.chi ∧
    (simpleSphericalDust rows).P1
      = rows.map (fun r => (simpleSphericalDust rows).mu.map
          (fun x => (henyey_greenstein x r.g r.p_lin_max).1)) ∧
    (simpleSphericalDust rows).P2
      = rows.map (fun r => (simpleSphericalDust rows).mu.map
          (fun x => (henyey_greenstein x r.g r.p_lin_max).2.1)) ∧
    (simpleSphericalDust rows).P3
      = rows.map (fun r => (simpleSphericalDust rows).mu.map
          (fun x => (henyey_greenstein x r.g r.p_lin_max).2.2.1)) ∧
    (simpleSphericalDust rows).P4
      = rows.map (fun r => (simpleSphericalDust rows).mu.map
          (fun x => (henyey_greenstein x r.g r.p_lin_max).2.2.2)) := by
  have hmu : (simpleSphericalDust rows).mu
      = (List.range 100).map (fun i : ℕ => -1 + (i : ℝ) * (2 / 99)) :=
    linspace_neg_one_one_100
  refine ⟨hmu, ?_, ?_, ?_, rfl, rfl, rfl, rfl, rfl, rfl⟩
  · rw [hmu]
    simp
  · rw [hmu]
    simp [List.getElem?_map, List.getElem?_range]
  · rw [hmu]
    simp [List.getElem?_map, List.getElem?_range]
    norm_num

/-! ## Claim C8 -/

/-- C8 counterexample: `SimpleSphericalDust` accepts a table row with
`c_ext = 1` and `c_sca = 2` without raising and produces
`albedo = [2]`, a value outside `[0, 1]` — loaders do not validate the
albedo range. -/
theorem simple_dust_albedo_outside_unit_interval :
    (simpleSphericalDust [⟨1, 1, 2, 1, 0, 0⟩]).albedo = [(2 : ℝ)] ∧
    ¬ ((2 : ℝ) ≤ 1) := by
  constructor
  · show [(2 : ℝ) / 1] = [(2 : ℝ)]
    norm_num
  · norm_num

/-- C8 (amended): for every loader input, `albedo` has length `n_wav`
(one entry per wavelength row) and equals `c_sca / c_ext` per row, but
its values are not validated to lie in `[0, 1]`; NaN-freedom of a
quantity after loader completion is guaranteed only where the MieX
repair runs: any quantity `fixNaN` accepts is NaN-free. -/
theorem albedo_length_and_mieX_nan_guarantee (rows : List SimpleDustRow) :
    (simpleSphericalDust rows).albedo.length = rows.length ∧
    (simpleSphericalDust rows).albedo
      = rows.map (fun r => r.c_sca / r.c_ext) ∧
    (simpleSphericalDust rows).chi.length = rows.length ∧
    (∀ interp wav values vs warned,
        fixNaN interp wav values = Except.ok (vs, warned) →
        vs.any isnan = false) := by
  refine ⟨?_, rfl, ?_, ?_⟩
  · show (rows.map (fun r => r.c_sca / r.c_ext)).length = rows.length
    simp
  · show (rows.map (fun r => r.chi)).length = rows.length
    simp
  · intro interp wav values vs warned h
    exact (fixNaN_ok_spec interp wav values vs warned h).1

/-- Witness for the amended C8 on a NaN-free concrete quantity. -/
theorem albedo_length_and_mieX_nan_guarantee_witness :
    fixNaN (fun _ _ _ => none) [1] [some 3] = Except.ok ([some 3], false) ∧
    ([some 3] : List (Option ℚ)).any isnan = false :=
  ⟨by decide,
   (albedo_length_and_mieX_nan_guarantee []).2.2.2 (fun _ _ _ => none)
     [1] [some 3] [some 3] false (by decide)⟩

/-! ## Claim C9 -/

/-- C9 counterexample: assigning `transmission = [1, 1]` to a fresh
filter (no spectral coordinate yet) succeeds, and then assigning the
one-element `spectral_coord = [1]` also succeeds — the spectral-coord
setter performs no cross-check — leaving a filter with both fields set
and unequal lengths, refuting order-independence of the invariant. -/
theorem filter_unequal_lengths_both_set :
    Filter.set_transmission (⟨none, none, none, none⟩ : Filter)
        (some [1, 1])
      = Except.ok (⟨none, none, some [1, 1], none⟩ : Filter) ∧
    Filter.set_spectral_coord (⟨none, none, some [1, 1], none⟩ : Filter)
        (some [1])
      = Except.ok (⟨none, some [1], some [1, 1], none⟩ : Filter) ∧
    (⟨none, some [1], some [1, 1], none⟩ : Filter).spectral_coord
      = some [1] ∧
    (⟨none, some [1], some [1, 1], none⟩ : Filter).transmission
      = some [1, 1] ∧
    (([1, 1] : List ℚ).length ≠ ([1] : List ℚ).length) := by
  refine ⟨by decide, by decide, by decide, by decide, by decide⟩

/-- C9 (amended): the equal-length invariant is enforced only when
`transmission` is assigned while `spectral_coord` is already set: then
the accepted value has the length of `spectral_coord` and nonnegative
entries (the `positive` domain; the upper bound 1 is not checked), and
`spectral_coord` is untouched.  Assigning `spectral_coord` after
`transmission` performs no cross-check, so the invariant is
order-dependent. -/
theorem transmission_setter_validation (f : Filter) (xs ys : List ℚ)
    (f1 : Filter) (hsc : f.spectral_coord = some xs)
    (h : Filter.set_transmission f (some ys) = Except.ok f1) :
    ys.length = xs.length ∧ (∀ y ∈ ys, 0 ≤ y) ∧
    f1.transmission = some ys ∧ f1.spectral_coord = some xs := by
  simp only [Filter.set_transmission, hsc, Option.map_some',
    Option.getD_some] at h
  unfold validate_array at h
  simp only [Option.getD_some] at h
  by_cases hall : (ys.all fun x => decide (0 ≤ x)) = true
  · rw [if_pos hall] at h
    by_cases hlen : ys.length = xs.length
    · rw [if_pos hlen] at h
      simp only [Except.ok.injEq] at h
      subst h
      refine ⟨hlen, ?_, rfl, rfl⟩
      intro y hy
      have := List.all_eq_true.mp hall y hy
      exact of_decide_eq_true this
    · rw [if_neg hlen] at h
      simp at h
  · rw [if_neg hall] at h
    simp at h

/-- Witness for the amended C9: a valid one-element transmission is
accepted against a one-element spectral coordinate. -/
theorem transmission_setter_validation_witness :
    (⟨none, some [5], none, none⟩ : Filter).spectral_coord = some [5] ∧
    Filter.set_transmission (⟨none, some [5], none, none⟩ : Filter)
        (some [1])
      = Except.ok (⟨none, some [5], some [1], none⟩ : Filter) ∧
    (([1] : List ℚ).length = ([5] : List ℚ).length ∧
     (∀ y ∈ ([1] : List ℚ), 0 ≤ y) ∧
     (⟨none, some [5], some [1], none⟩ : Filter).transmission
       = some [1] ∧
     (⟨none, some [5], some [1], none⟩ : Filter).spectral_coord
       = some [5]) :=
  ⟨rfl, by decide,
   transmission_setter_validation (⟨none, some [5], none, none⟩ : Filter)
     [5] [1] (⟨none, some [5], some [1], none⟩ : Filter) rfl
     (by decide)⟩

/-! ## Claim C10 -/

/-- C10: a freshly constructed `Filter` has no detector type (reading
the property before assignment raises); assigning `"energy"` or
`"photons"` succeeds, storing `_beta = -1` resp. `_beta = 0`, and a
subsequent read returns exactly the assigned string; assigning any
other value raises `ValueError`, producing no new state, so the stored
detector state is unchanged. -/
theorem detector_type_lifecycle :
    (∀ f0 : Filter, Filter.init none none none = Except.ok f0 →
        f0.beta = none ∧
        Filter.detector_type f0 = Except.error "AttributeError: _beta") ∧
    (∀ f : Filter,
        Filter.set_detector_type f "energy"
          = Except.ok { f with beta := some (-1) } ∧
        Filter.detector_type { f with beta := some (-1) }
          = Except.ok "energy") ∧
    (∀ f : Filter,
        Filter.set_detector_type f "photons"
          = Except.ok { f with beta := some 0 } ∧
        Filter.detector_type { f with beta := some 0 }
          = Except.ok "photons") ∧
    (∀ (f : Filter) (v : String), v ≠ "energy" → v ≠ "photons" →
        Filter.set_detector_type f v
          = Except.error "detector_type should be one of energy/photons") := by
  refine ⟨?_, ?_, ?_, ?_⟩
  · intro f0 h
    simp only [Filter.init, Filter.set_spectral_coord,
      Filter.set_transmission, Except.ok.injEq] at h
    subst h
    exact ⟨rfl, rfl⟩
  · intro f
    exact ⟨rfl, by simp [Filter.detector_type]⟩
  · intro f
    refine ⟨?_, by simp [Filter.detector_type]⟩
    simp [Filter.set_detector_type]
  · intro f v h1 h2
    simp [Filter.set_detector_type, h1, h2]

/-- Witness for C10 on a concrete fresh filter and the invalid detector
string `"foo"`. -/
theorem detector_type_lifecycle_witness :
    Filter.init none none none
      = Except.ok (⟨none, none, none, none⟩ : Filter) ∧
    ((⟨none, none, none, none⟩ : Filter).beta = none ∧
     Filter.detector_type (⟨none, none, none, none⟩ : Filter)
       = Except.error "AttributeError: _beta") ∧
    ("foo" ≠ "energy") ∧ ("foo" ≠ "photons") ∧
    Filter.set_detector_type (⟨none, none, none, none⟩ : Filter) "foo"
      = Except.error "detector_type should be one of energy/photons" :=
  ⟨by decide,
   detector_type_lifecycle.1 (⟨none, none, none, none⟩ : Filter)
     (by decide),
   by decide, by decide,
   detector_type_lifecycle.2.2.2 (⟨none, none, none, none⟩ : Filter)
     "foo" (by decide) (by decide)⟩

end Hyperion
